import Mathlib

/-!
Verification of the identity/data-access backend (Express + pg + bcrypt + jsonwebtoken).

The repository contains near-duplicate service variants.  The definitions below are a
shallow embedding of the handlers and helpers of the two canonical variants:

* `src/db.js` — `safeQuery` (pool acquire, query, release, tagged result);
* `src/server.js` — `authenticateToken`, `GET /health`, `POST /api/auth/signup`,
  `POST /api/auth/login` (minimal variant, no e-mail shape / password length checks);
* `src/unnamed/part_004` — the full variant: signup with e-mail shape and password
  length validation, login with the `is_active` check, health using the global
  `dbConnected` flag;
* `src/unnamed/part_001` (first mini-server) — a health route that answers 500
  when the probe query fails.

Effects of the outside world (the pg pool, the query outcome, bcrypt, jwt) are passed
in as explicit arguments, so every handler is a pure total function of its request and
of the observed effect outcomes.
-/

namespace Backend

/-! ## Basic response and result types -/

/-- An HTTP response as observed by the client: status code plus the
*distinguishing* part of the JSON body (the human-readable message / field value). -/
structure HttpResponse where
  status : Nat
  message : String
  deriving Repr, DecidableEq

/-- The tagged outcome of `safeQuery` in `src/db.js`:
`{ success: true, data }` or `{ success: false, error }`.  `data` is the row list of
the pg result. -/
inductive QueryResult (α : Type) where
  | success (rows : List α)
  | failure (error : String)
  deriving Repr, DecidableEq

/-! ## JavaScript string helpers

`authHeader.split(' ')[1]` splits on every single space character (JavaScript
`String.prototype.split` with a one-character separator); `splitOnChar` mirrors that:
`"".split(' ') = [""]`, `"a  b".split(' ') = ["a","","b"]`. -/

/-- JavaScript `s.split(sep)` for a one-character separator, on the character list. -/
def splitOnChar (sep : Char) : List Char → List (List Char)
  | [] => [[]]
  | c :: rest =>
    if c = sep then [] :: splitOnChar sep rest
    else
      match splitOnChar sep rest with
      | [] => [[c]]
      | h :: t => (c :: h) :: t

/-- JavaScript falsiness of an optional string field of `req.body`:
`undefined`/missing and the empty string are falsy (`if (!name) ...`). -/
def jsFalsy : Option String → Bool
  | none => true
  | some s => s = ""

/-! ## Auth middleware (`authenticateToken`, src/server.js lines 25-36)

```js
const authHeader = req.headers['authorization'];
const token = authHeader && authHeader.split(' ')[1];
if (!token) return res.status(401).json({ error: 'Access token required' });
jwt.verify(token, JWT_SECRET, (err, user) => {
  if (err) return res.status(403).json({ error: 'Invalid or expired token' });
  req.user = user; next();
});
```

`extractToken` is the value of `authHeader && authHeader.split(' ')[1]` collapsed to
`none` whenever it is falsy (header absent, header `""`, segment 1 undefined, or
segment 1 the empty string). -/

/-- The identity claims embedded in a token (`{ id, email }` as signed in
`src/server.js` lines 77-81). -/
structure TokenClaims where
  id : Nat
  email : String
  deriving Repr, DecidableEq

/-- Token extraction of the middleware: `authHeader && authHeader.split(' ')[1]`,
`none` when the resulting value is falsy. -/
def extractToken : Option String → Option String
  | none => none
  | some h =>
    match (splitOnChar ' ' h.toList).get? 1 with
    | none => none
    | some t => if t = [] then none else some (String.mk t)

/-- Outcome of the middleware: reject with a status/message, or attach the decoded
identity to `req.user` and continue. -/
inductive AuthOutcome where
  | reject (status : Nat) (message : String)
  | proceed (user : TokenClaims)
  deriving Repr, DecidableEq

/-- The `authenticateToken` middleware of `src/server.js` (identical in
`src/unnamed/part_004` lines 48-69 up to message wording).  `verify` is the outcome
of `jwt.verify(token, JWT_SECRET, ...)`: `none` when it reports an error. -/
def authenticateToken (verify : String → Option TokenClaims)
    (authHeader : Option String) : AuthOutcome :=
  match extractToken authHeader with
  | none => .reject 401 "Access token required"
  | some token =>
    match verify token with
    | none => .reject 403 "Invalid or expired token"
    | some user => .proceed user

/-! ## safeQuery (src/db.js lines 63-75)

```js
const safeQuery = async (text, params = []) => {
  let client;
  try {
    client = await pool.connect();
    const result = await client.query(text, params);
    return { success: true, data: result };
  } catch (err) {
    return { success: false, error: err.message };
  } finally {
    if (client) client.release();
  }
};
```

The two awaited effects are passed as `Except String` values (`Except.error`
models the awaited promise rejecting, i.e. a thrown exception).  `safeQuery`
returns the tagged result together with the number of `client.release()` calls
performed by the `finally` block (`release` happens iff `client` was assigned,
i.e. iff `pool.connect()` succeeded). -/

/-- The body of the `try` block without the `catch`/`finally`: `pool.connect()`
then `client.query(text, params)`, each of which may throw, and the exception
propagates. -/
def rawQuery {α : Type} (connect : Except String Unit)
    (query : Except String (List α)) : Except String (List α) :=
  match connect with
  | .error msg => .error msg
  | .ok _ => query

/-- `safeQuery` of `src/db.js`: the tagged result plus the count of
`client.release()` calls on that control path. -/
def safeQuery {α : Type} (connect : Except String Unit)
    (query : Except String (List α)) : QueryResult α × Nat :=
  match connect with
  | .error msg => (.failure msg, 0)
  | .ok _ =>
    match query with
    | .error msg => (.failure msg, 1)
    | .ok rows => (.success rows, 1)

/-! ## Health endpoints -/

/-- `GET /health` of `src/server.js` lines 39-46: always `res.json` (status 200),
with the `database` field degraded to `"Disconnected"` when `testConnection()`
returned false.  The response `message` carries the `database` field. -/
def healthServer (dbStatus : Bool) : HttpResponse :=
  { status := 200, message := if dbStatus then "Connected" else "Disconnected" }

/-- `GET /health` of the first mini-server in `src/unnamed/part_001` lines 20-27:
`await pool.query('SELECT 1')`; on success `res.json({status:'OK',
database:'connected'})`, on a thrown error `res.status(500).json({status:'error',
database:'disconnected'})`.  The probe is passed as the outcome of the awaited
query. -/
def healthPart001 (probe : Except String Unit) : HttpResponse :=
  match probe with
  | .ok _ => { status := 200, message := "connected" }
  | .error _ => { status := 500, message := "disconnected" }

/-! ## Password hasher (bcrypt) -/

/-- Modelled from the spec: the Password Hasher (the `bcrypt` library behind
`bcrypt.hash` / `bcrypt.compare`) is not part of `src/`; only its call sites are.
Spec 4.3: a salted adaptive hash with a work factor; `verify(plaintext, hash)`
recomputes with the salt and cost stored in the hash and compares.  The digest is
modelled as an ideal collision-free fingerprint of the plaintext (represented by
the character list). -/
structure BcryptHash where
  salt : Nat
  cost : Nat
  digest : List Char
  deriving Repr, DecidableEq

/-- Modelled from the spec: recomputation of the digest for a plaintext under a
given salt and cost (ideal, collision-free). -/
def bcryptDigest (salt cost : Nat) (p : String) : List Char :=
  let _ := salt
  let _ := cost
  p.toList

/-- Modelled from the spec: `bcrypt.hash(plaintext, saltRounds)` with a fresh salt. -/
def bcryptHash (salt cost : Nat) (p : String) : BcryptHash :=
  { salt := salt, cost := cost, digest := bcryptDigest salt cost p }

/-- Modelled from the spec: `bcrypt.compare(plaintext, storedHash)` — recompute the
digest with the stored salt/cost and compare. -/
def bcryptCompare (p : String) (h : BcryptHash) : Bool :=
  bcryptDigest h.salt h.cost p = h.digest

/-! ## Token issuer/verifier (jsonwebtoken) -/

/-- Modelled from the spec: the signed token payload — claims plus issued-at and
expiry (spec 4.4: "serializes claims plus issued-at and computed expiry"). -/
structure TokenPayload where
  claims : TokenClaims
  iat : Nat
  exp : Nat
  deriving Repr, DecidableEq

/-- Modelled from the spec: the symmetric signature (HMAC) over the serialized
payload under the server-held secret, as a byte list.  The concrete bytes are a
deterministic function of secret and payload, which is all the claims about the
verifier depend on. -/
def macSign (secret : String) (p : TokenPayload) : List Nat :=
  (secret.toList.map Char.toNat) ++ [p.claims.id, p.iat, p.exp]
    ++ (p.claims.email.toList.map Char.toNat)

/-- Modelled from the spec: a signed token — payload segment plus signature
segment. -/
structure SignedToken where
  payload : TokenPayload
  sig : List Nat
  deriving Repr, DecidableEq

/-- Modelled from the spec: `jwt.sign(claims, JWT_SECRET, { expiresIn })` —
`issue(claims, ttl)` stamps issued-at = now, expiry = now + ttl, and signs. -/
def issueToken (secret : String) (claims : TokenClaims) (now ttl : Nat) : SignedToken :=
  let p : TokenPayload := { claims := claims, iat := now, exp := now + ttl }
  { payload := p, sig := macSign secret p }

/-- Outcome of token verification: signature mismatch, expired, or the embedded
claims. -/
inductive VerifyOutcome where
  | sigInvalid
  | expired
  | valid (claims : TokenClaims)
  deriving Repr, DecidableEq

/-- Modelled from the spec: `jwt.verify(token, JWT_SECRET)` — checks signature
integrity first (reject on any mismatch before inspecting contents), then expiry,
then returns the embedded claims. -/
def verifyToken (secret : String) (now : Nat) (t : SignedToken) : VerifyOutcome :=
  if t.sig ≠ macSign secret t.payload then .sigInvalid
  else if t.payload.exp ≤ now then .expired
  else .valid t.payload.claims

/-! ## The users table row -/

/-- A row of the `users` table as selected by the handlers
(`id, name, email, password_hash, is_active`; `created_at`/`last_login` are not
inspected by any control flow below). -/
structure UserRow where
  id : Nat
  name : String
  email : String
  password_hash : BcryptHash
  is_active : Bool
  deriving Repr, DecidableEq

/-! ## Signup handlers -/

/-- The parsed `req.body` of a signup request: each field is `undefined` or a
string. -/
structure SignupRequest where
  name : Option String
  email : Option String
  password : Option String
  deriving Repr, DecidableEq

/-- The store/crypto effects a signup handler performs, in order. -/
inductive DbEffect where
  | selectByEmail
  | hashPassword
  | insertUser
  deriving Repr, DecidableEq

/-- A character matching the regex class `[^\s@]` of the signup e-mail regex. -/
def emailChar (c : Char) : Bool :=
  !c.isWhitespace && c ≠ '@'

/-- A nonempty run of `[^\s@]` characters. -/
def emailSeg (l : List Char) : Bool :=
  !l.isEmpty && l.all emailChar

/-- The domain part `[^\s@]+\.[^\s@]+`: some decomposition around a dot with a
nonempty `[^\s@]+` run on each side. -/
def domainOk (l : List Char) : Bool :=
  (List.range l.length).any (fun i =>
    decide (l.get? i = some '.') && emailSeg (l.take i) && emailSeg (l.drop (i + 1)))

/-- The signup e-mail validation of `src/unnamed/part_004` line 224:
`/^[^\s@]+@[^\s@]+\.[^\s@]+$/.test(email)`, implemented as the existence of a
decomposition `local @ domain` matching the anchored regex. -/
def emailShape (s : String) : Bool :=
  let cs := s.toList
  (List.range cs.length).any (fun i =>
    decide (cs.get? i = some '@') && emailSeg (cs.take i) && domainOk (cs.drop (i + 1)))

/-- `POST /api/auth/signup` of `src/server.js` lines 49-95 (same logic in
`src/unnamed/part_000`): required-fields check, existence check, hash, insert.
`selectRes`/`insertRes` are the tagged results of the two `safeQuery` calls; the
returned list records which store/crypto effects ran, in order.  An insert result
with `success: true` but no returned row makes `newUser.data.rows[0].id` throw,
which the outer `catch` turns into the generic 500. -/
def signupServer (body : SignupRequest)
    (selectRes insertRes : QueryResult UserRow) :
    HttpResponse × List DbEffect :=
  if jsFalsy body.name || jsFalsy body.email || jsFalsy body.password then
    ({ status := 400, message := "All fields are required" }, [])
  else
    match selectRes with
    | .success (_ :: _) =>
      ({ status := 409, message := "Email already registered" }, [.selectByEmail])
    | _ =>
      match insertRes with
      | .success (_ :: _) =>
        ({ status := 201, message := "User registered successfully" },
          [.selectByEmail, .hashPassword, .insertUser])
      | .success [] =>
        ({ status := 500, message := "Internal server error" },
          [.selectByEmail, .hashPassword, .insertUser])
      | .failure _ =>
        ({ status := 500, message := "Failed to create user" },
          [.selectByEmail, .hashPassword, .insertUser])

/-- `POST /api/auth/signup` of `src/unnamed/part_004` lines 204-306 (the full
variant): `dbConnected` guard, required fields, e-mail shape, minimum password
length, existence check, hash, insert.  An insert result with `success: true` but
no returned row makes `result.data.rows[0].id` throw, caught by the outer
`catch` (500, "Error during signup"). -/
def signupFull (dbConnected : Bool) (body : SignupRequest)
    (selectRes insertRes : QueryResult UserRow) :
    HttpResponse × List DbEffect :=
  if !dbConnected then
    ({ status := 503, message := "Database not connected" }, [])
  else if jsFalsy body.name || jsFalsy body.email || jsFalsy body.password then
    ({ status := 400, message := "Name, email, and password are required" }, [])
  else if !emailShape (body.email.getD "") then
    ({ status := 400, message := "Invalid email format" }, [])
  else if (body.password.getD "").length < 6 then
    ({ status := 400, message := "Password must be at least 6 characters long" }, [])
  else
    match selectRes with
    | .success (_ :: _) =>
      ({ status := 409, message := "Email already registered" }, [.selectByEmail])
    | _ =>
      match insertRes with
      | .success (_ :: _) =>
        ({ status := 201, message := "User registered successfully" },
          [.selectByEmail, .hashPassword, .insertUser])
      | .success [] =>
        ({ status := 500, message := "Error during signup" },
          [.selectByEmail, .hashPassword, .insertUser])
      | .failure _ =>
        ({ status := 500, message := "Failed to create user" },
          [.selectByEmail, .hashPassword, .insertUser])

/-! ## Login handler (src/unnamed/part_004 lines 309-400) -/

/-- The parsed `req.body` of a login request. -/
structure LoginRequest where
  email : Option String
  password : Option String
  deriving Repr, DecidableEq

/-- `POST /api/auth/login` of `src/unnamed/part_004`: `dbConnected` guard, required
fields, lookup by e-mail, `is_active` check, `bcrypt.compare`, best-effort
`last_login` update (its result is never inspected), token, 200.  `selectRes` is
the tagged result of the lookup `safeQuery`; `updateRes` the result of the
`last_login` update. -/
def loginFull (dbConnected : Bool) (body : LoginRequest)
    (selectRes : QueryResult UserRow) (updateRes : QueryResult UserRow) :
    HttpResponse :=
  if !dbConnected then
    { status := 503, message := "Database not connected" }
  else if jsFalsy body.email || jsFalsy body.password then
    { status := 400, message := "Email and password are required" }
  else
    match selectRes with
    | .failure _ => { status := 401, message := "Invalid email or password" }
    | .success [] => { status := 401, message := "Invalid email or password" }
    | .success (user :: _) =>
      if !user.is_active then
        { status := 401, message := "Account is deactivated" }
      else if !bcryptCompare (body.password.getD "") user.password_hash then
        { status := 401, message := "Invalid email or password" }
      else
        let _ := updateRes
        { status := 200, message := "Login successful" }

/-! ## Helper lemmas -/

/-- Character list of a string built from a character list. -/
theorem mk_toList (l : List Char) : (String.mk l).toList = l := rfl

/-- Splitting a list that does not contain the separator yields the single segment. -/
theorem splitOnChar_no_sep (sep : Char) (l : List Char) (h : sep ∉ l) :
    splitOnChar sep l = [l] := by
  induction l with
  | nil => rfl
  | cons c rest ih =>
    have hc : ¬ c = sep := fun hc => h (hc ▸ List.mem_cons_self c rest)
    have hrest : sep ∉ rest := fun hm => h (List.mem_cons_of_mem c hm)
    simp [splitOnChar, hc, ih hrest]

/-- Splitting around the first separator: the separator-free part becomes segment 0. -/
theorem splitOnChar_append (sep : Char) (s t : List Char) (hs : sep ∉ s) :
    splitOnChar sep (s ++ sep :: t) = s :: splitOnChar sep t := by
  induction s with
  | nil => simp [splitOnChar]
  | cons c s ih =>
    have hc : ¬ c = sep := fun hc => hs (hc ▸ List.mem_cons_self c s)
    have hs2 : sep ∉ s := fun hm => hs (List.mem_cons_of_mem c hm)
    simp [splitOnChar, hc, ih hs2]

/-- A header with no space yields no token (`split(' ')[1]` is undefined). -/
theorem extractToken_mk_no_space (l : List Char) (h : ' ' ∉ l) :
    extractToken (some (String.mk l)) = none := by
  simp [extractToken, mk_toList, splitOnChar_no_sep ' ' l h]

/-- A header `scheme ++ " " ++ token` with space-free nonempty token yields that
token, whatever the scheme word is. -/
theorem extractToken_mk_append (s t : List Char) (hs : ' ' ∉ s) (ht : ' ' ∉ t)
    (htne : t ≠ []) :
    extractToken (some (String.mk (s ++ ' ' :: t))) = some (String.mk t) := by
  simp [extractToken, mk_toList, splitOnChar_append ' ' s t hs,
    splitOnChar_no_sep ' ' t ht, htne]

/-- A header `scheme ++ " "` (empty value after the scheme) yields no token. -/
theorem extractToken_mk_trailing_space (s : List Char) (hs : ' ' ∉ s) :
    extractToken (some (String.mk (s ++ [' ']))) = none := by
  have harr : s ++ [' '] = s ++ ' ' :: ([] : List Char) := rfl
  rw [harr]
  simp [extractToken, mk_toList, splitOnChar_append ' ' s [] hs, splitOnChar]

/-- Overwriting a list entry with a different value changes the list. -/
theorem set_ne_of_get_ne {l : List Nat} {i b : Nat} (h : i < l.length)
    (hb : b ≠ l.get ⟨i, h⟩) : l.set i b ≠ l := by
  intro hset
  apply hb
  have h2 := congrArg (fun x => x.get? i) hset
  simp only [List.getElem?_set_eq_of_lt b h, List.get?_eq_getElem?,
    List.getElem?_eq_getElem h] at h2
  exact Option.some.inj h2

/-! ## Claim theorems -/

/-- Claim C3: for every connect and query outcome, `safeQuery` returns the tagged
Result obtained by catching the raw (exception-propagating) execution — success
with the rows on success, failure with the error message on any storage failure,
never an exception — and the number of `client.release()` calls is exactly one
whenever a connection was acquired (success or query error) and zero when
acquisition itself failed, so the acquired connection is released exactly once on
every exit path. -/
theorem safeQuery_contract (α : Type) (connect : Except String Unit)
    (query : Except String (List α)) :
    (safeQuery connect query).1 =
      (match rawQuery connect query with
        | .ok rows => QueryResult.success rows
        | .error e => QueryResult.failure e)
    ∧ (safeQuery connect query).2 =
      (match connect with
        | .ok _ => 1
        | .error _ => 0) := by
  cases connect with
  | error m => exact ⟨rfl, rfl⟩
  | ok u => cases query with
    | error m => exact ⟨rfl, rfl⟩
    | ok rows => exact ⟨rfl, rfl⟩

/-- Claim C4: the authentication middleware rejects with 401 whenever no token can
be extracted from the Authorization header — in particular when the header is
absent, when it contains no space (missing scheme prefix), and when the value
after the scheme is empty; when a token is extracted but verification fails it
rejects with 403; and when verification succeeds it attaches the decoded identity
and continues. -/
theorem authenticateToken_state_machine (verify : String → Option TokenClaims)
    (h : Option String) :
    (extractToken h = none →
      authenticateToken verify h = AuthOutcome.reject 401 "Access token required")
    ∧ (∀ t, extractToken h = some t → verify t = none →
      authenticateToken verify h = AuthOutcome.reject 403 "Invalid or expired token")
    ∧ (∀ t u, extractToken h = some t → verify t = some u →
      authenticateToken verify h = AuthOutcome.proceed u)
    ∧ extractToken none = none
    ∧ (∀ l : List Char, ' ' ∉ l → extractToken (some (String.mk l)) = none)
    ∧ (∀ l : List Char, ' ' ∉ l →
      extractToken (some (String.mk (l ++ [' ']))) = none) := by
  refine ⟨fun he => ?_, fun t ht hv => ?_, fun t u ht hv => ?_, rfl,
    fun l hl => extractToken_mk_no_space l hl,
    fun l hl => extractToken_mk_trailing_space l hl⟩
  · simp [authenticateToken, he]
  · simp [authenticateToken, ht, hv]
  · simp [authenticateToken, ht, hv]

/-- Claim C4 witness: concrete runs of the middleware — header "Bearer" (no
space) is rejected 401, a verifiable token is accepted, a bad token is rejected
403. -/
theorem authenticateToken_state_machine_witness :
    authenticateToken (fun t => if t = "good" then some { id := 1, email := "a@x.com" } else none)
      (some "Bearer") = AuthOutcome.reject 401 "Access token required"
    ∧ authenticateToken (fun t => if t = "good" then some { id := 1, email := "a@x.com" } else none)
      (some "Bearer bad") = AuthOutcome.reject 403 "Invalid or expired token"
    ∧ authenticateToken (fun t => if t = "good" then some { id := 1, email := "a@x.com" } else none)
      (some "Bearer good") = AuthOutcome.proceed { id := 1, email := "a@x.com" } := by
  refine ⟨(authenticateToken_state_machine _ (some "Bearer")).1 (by decide),
    (authenticateToken_state_machine _ (some "Bearer bad")).2.1 "bad" (by decide) (by decide),
    (authenticateToken_state_machine _ (some "Bearer good")).2.2.1 "good"
      { id := 1, email := "a@x.com" } (by decide) (by decide)⟩

/-- Claim C9: the middleware takes the second space-separated segment of the
Authorization header and never inspects the scheme word: for any space-free
scheme `s` and space-free nonempty token `t`, the header `s ++ " " ++ t` yields
exactly `t` (so a token that verifies is accepted under any scheme, e.g.
`Basic`), while a header containing no space yields the 401 no-token
rejection. -/
theorem scheme_not_checked (verify : String → Option TokenClaims)
    (s t : List Char) (hs : ' ' ∉ s) (ht : ' ' ∉ t) (htne : t ≠ []) :
    extractToken (some (String.mk (s ++ ' ' :: t))) = some (String.mk t)
    ∧ (∀ u, verify (String.mk t) = some u →
      authenticateToken verify (some (String.mk (s ++ ' ' :: t))) = AuthOutcome.proceed u)
    ∧ (∀ l : List Char, ' ' ∉ l →
      authenticateToken verify (some (String.mk l)) =
        AuthOutcome.reject 401 "Access token required") := by
  have hx := extractToken_mk_append s t hs ht htne
  refine ⟨hx, fun u hu => ?_, fun l hl => ?_⟩
  · simp [authenticateToken, hx, hu]
  · simp [authenticateToken, extractToken_mk_no_space l hl]

/-- Claim C9 witness: a valid token under the scheme word `Basic` is accepted,
and a no-space header is rejected 401. -/
theorem scheme_not_checked_witness :
    authenticateToken
      (fun t => if t = "tok123" then some { id := 1, email := "a@x.com" } else none)
      (some (String.mk ("Basic".toList ++ ' ' :: "tok123".toList))) =
      AuthOutcome.proceed { id := 1, email := "a@x.com" }
    ∧ authenticateToken
      (fun t => if t = "tok123" then some { id := 1, email := "a@x.com" } else none)
      (some (String.mk "tok123".toList)) =
      AuthOutcome.reject 401 "Access token required" := by
  refine ⟨(scheme_not_checked _ "Basic".toList "tok123".toList (by decide) (by decide)
      (by decide)).2.1 _ (by decide),
    (scheme_not_checked _ "Basic".toList "tok123".toList (by decide) (by decide)
      (by decide)).2.2 "tok123".toList (by decide)⟩

/-- Claim C8 counterexample: the health route of the first mini-server in
`src/unnamed/part_001` answers with the error status 500, not a success status,
when the store probe fails. -/
theorem health_part001_error_status :
    (healthPart001 (Except.error "connection refused")).status = 500 := rfl

/-- Claim C8 (amended): the `src/server.js` health endpoint always answers with
status 200, degrading only the reported `database` field when the store is
unreachable; but the minimal `src/unnamed/part_001` variant answers 500 whenever
its probe query fails. -/
theorem health_amended (b : Bool) (e : String) :
    (healthServer b).status = 200
    ∧ (healthServer false).message = "Disconnected"
    ∧ (healthServer true).message = "Connected"
    ∧ (healthPart001 (Except.error e)).status = 500 := by
  exact ⟨rfl, rfl, rfl, rfl⟩

/-- Claim C1: a signup whose duplicate-email existence check finds no row (the
concurrent-duplicate race) and whose INSERT then fails with the store's
uniqueness-constraint error is answered with the generic storage-failure status
500 ("Failed to create user"), not the 409 conflict outcome the specification
requires. -/
theorem signup_unique_violation_returns_500 :
    signupFull true
      { name := some "A", email := some "a@x.com", password := some "secret1" }
      (QueryResult.success [])
      (QueryResult.failure "duplicate key value violates unique constraint users_email_key") =
    ({ status := 500, message := "Failed to create user" },
      [DbEffect.selectByEmail, DbEffect.hashPassword, DbEffect.insertUser]) := by
  decide

/-- Claim C2 counterexample: in the login of `src/unnamed/part_004`, an inactive
account (even with the correct password) is answered "Account is deactivated",
while a non-existent account is answered "Invalid email or password" — two of the
three failure causes produce observably different bodies. -/
theorem login_inactive_distinguishable :
    loginFull true { email := some "a@x.com", password := some "pw" }
      (QueryResult.success [⟨1, "A", "a@x.com", bcryptHash 7 12 "pw", false⟩])
      (QueryResult.success []) =
      { status := 401, message := "Account is deactivated" }
    ∧ loginFull true { email := some "a@x.com", password := some "pw" }
      (QueryResult.success []) (QueryResult.success []) =
      { status := 401, message := "Invalid email or password" }
    ∧ ({ status := 401, message := "Account is deactivated" } : HttpResponse) ≠
      { status := 401, message := "Invalid email or password" } := by
  decide

/-- Claim C2 (amended): all three login failure causes are answered with status
401; the absent-account cause (and a failed lookup) and the failed-password cause
return the identical generic body, but the inactive-account cause returns the
distinguishable body "Account is deactivated". -/
theorem login_failure_responses (e p err : String) (he : e ≠ "") (hp : p ≠ "")
    (user : UserRow) (upd : QueryResult UserRow) :
    loginFull true { email := some e, password := some p }
      (QueryResult.success []) upd =
      { status := 401, message := "Invalid email or password" }
    ∧ loginFull true { email := some e, password := some p }
      (QueryResult.failure err) upd =
      { status := 401, message := "Invalid email or password" }
    ∧ (user.is_active = true → bcryptCompare p user.password_hash = false →
      loginFull true { email := some e, password := some p }
        (QueryResult.success [user]) upd =
        { status := 401, message := "Invalid email or password" })
    ∧ (user.is_active = false →
      loginFull true { email := some e, password := some p }
        (QueryResult.success [user]) upd =
        { status := 401, message := "Account is deactivated" }) := by
  refine ⟨?_, ?_, fun hact hcmp => ?_, fun hact => ?_⟩ <;>
    simp [loginFull, jsFalsy, he, hp, *]

/-- Claim C2 witness: concrete login attempts — absent account, wrong password on
an active account, and an inactive account. -/
theorem login_failure_responses_witness :
    loginFull true { email := some "a@x.com", password := some "pw" }
      (QueryResult.success []) (QueryResult.success []) =
      { status := 401, message := "Invalid email or password" }
    ∧ loginFull true { email := some "a@x.com", password := some "pw" }
      (QueryResult.success [⟨1, "A", "a@x.com", bcryptHash 7 12 "other", true⟩])
      (QueryResult.success []) =
      { status := 401, message := "Invalid email or password" }
    ∧ loginFull true { email := some "a@x.com", password := some "pw" }
      (QueryResult.success [⟨1, "A", "a@x.com", bcryptHash 7 12 "pw", false⟩])
      (QueryResult.success []) =
      { status := 401, message := "Account is deactivated" } := by
  refine ⟨(login_failure_responses "a@x.com" "pw" "x" (by decide) (by decide)
      ⟨1, "A", "a@x.com", bcryptHash 7 12 "other", true⟩
      (QueryResult.success [])).1,
    (login_failure_responses "a@x.com" "pw" "x" (by decide) (by decide)
      ⟨1, "A", "a@x.com", bcryptHash 7 12 "other", true⟩
      (QueryResult.success [])).2.2.1 (by decide) (by decide),
    (login_failure_responses "a@x.com" "pw" "x" (by decide) (by decide)
      ⟨1, "A", "a@x.com", bcryptHash 7 12 "pw", false⟩
      (QueryResult.success [])).2.2.2 (by decide)⟩

/-- Claim C5: a token produced by `issueToken` verifies to its embedded claims at
any time strictly before the expiry `now + ttl`; `verifyToken` answers `expired`
once the expiry has elapsed; and mutating any single byte of the signature
segment makes `verifyToken` answer `sigInvalid` at every verification time (in
particular the signature is checked before expiry or contents are inspected). -/
theorem issue_verify_roundtrip (secret : String) (claims : TokenClaims)
    (now ttl t2 : Nat) :
    (t2 < now + ttl →
      verifyToken secret t2 (issueToken secret claims now ttl) =
        VerifyOutcome.valid claims)
    ∧ (now + ttl ≤ t2 →
      verifyToken secret t2 (issueToken secret claims now ttl) =
        VerifyOutcome.expired)
    ∧ (∀ i b, ∀ h : i < (issueToken secret claims now ttl).sig.length,
      b ≠ (issueToken secret claims now ttl).sig.get ⟨i, h⟩ →
      verifyToken secret t2
        { payload := (issueToken secret claims now ttl).payload,
          sig := ((issueToken secret claims now ttl).sig).set i b } =
        VerifyOutcome.sigInvalid) := by
  refine ⟨fun hlt => ?_, fun hle => ?_, fun i b h hb => ?_⟩
  · simp [verifyToken, issueToken, Nat.not_le.mpr hlt]
  · simp [verifyToken, issueToken, hle]
  · have hne := set_ne_of_get_ne h hb
    simp only [issueToken] at hne ⊢
    simp [verifyToken, hne]

/-- Claim C5 witness: a concrete token round-trips inside the window, expires at
the deadline, and is rejected when byte 0 of its signature is overwritten. -/
theorem issue_verify_roundtrip_witness :
    verifyToken "k" 5 (issueToken "k" { id := 1, email := "a@x.com" } 0 10) =
      VerifyOutcome.valid { id := 1, email := "a@x.com" }
    ∧ verifyToken "k" 10 (issueToken "k" { id := 1, email := "a@x.com" } 0 10) =
      VerifyOutcome.expired
    ∧ verifyToken "k" 5
      { payload := (issueToken "k" { id := 1, email := "a@x.com" } 0 10).payload,
        sig := ((issueToken "k" { id := 1, email := "a@x.com" } 0 10).sig).set 0 0 } =
      VerifyOutcome.sigInvalid := by
  refine ⟨(issue_verify_roundtrip "k" { id := 1, email := "a@x.com" } 0 10 5).1 (by decide),
    (issue_verify_roundtrip "k" { id := 1, email := "a@x.com" } 0 10 10).2.1 (by decide),
    (issue_verify_roundtrip "k" { id := 1, email := "a@x.com" } 0 10 5).2.2 0 0
      (by decide) (by decide)⟩

/-- Claim C6: verifying a plaintext against its own hash succeeds, and verifying
a plaintext against the hash of a different plaintext fails, for every salt and
work factor. -/
theorem bcrypt_roundtrip (salt cost : Nat) (p q : String) (hpq : p ≠ q) :
    bcryptCompare p (bcryptHash salt cost p) = true
    ∧ bcryptCompare p (bcryptHash salt cost q) = false := by
  constructor
  · simp [bcryptCompare, bcryptHash, bcryptDigest]
  · simp only [bcryptCompare, bcryptHash, bcryptDigest, decide_eq_false_iff_not]
    exact fun hl => hpq (String.toList_inj.mp hl)

/-- Claim C6 witness: the round trip on two concrete distinct passwords. -/
theorem bcrypt_roundtrip_witness :
    bcryptCompare "secret1" (bcryptHash 0 12 "secret1") = true
    ∧ bcryptCompare "secret1" (bcryptHash 0 12 "secret2") = false :=
  bcrypt_roundtrip 0 12 "secret1" "secret2" (by decide)

/-- Claim C7 counterexample: the `src/server.js` signup handler performs no
e-mail-shape or password-length validation — the body
`{name:'A', email:'not-an-email', password:'abc'}` passes its validation,
reaches the store via the existence-check SELECT, is hashed and inserted, and is
answered 201, not the 400 the claim requires. -/
theorem signup_server_no_shape_validation :
    signupServer { name := some "A", email := some "not-an-email", password := some "abc" }
      (QueryResult.success [])
      (QueryResult.success [⟨1, "A", "not-an-email", bcryptHash 0 10 "abc", true⟩]) =
    ({ status := 201, message := "User registered successfully" },
      [DbEffect.selectByEmail, DbEffect.hashPassword, DbEffect.insertUser]) := by
  decide

/-- Claim C7 (amended): the full signup handler of `src/unnamed/part_004` rejects
with 400 — performing no store access, no hashing and no insertion (empty effect
trace) — every body missing (or empty in) name, email or password, every e-mail
failing the shape test, and every password shorter than six characters; the
minimal `src/server.js` handler rejects with 400 before any effect only bodies
with a missing or empty field, and an e-mail not matching the shape or a shorter
password passes its validation and proceeds to the store. -/
theorem signup_validation_rejects_before_store
    (body : SignupRequest) (selectRes insertRes : QueryResult UserRow) :
    ((jsFalsy body.name || jsFalsy body.email || jsFalsy body.password) = true →
      signupFull true body selectRes insertRes =
        ({ status := 400, message := "Name, email, and password are required" }, []))
    ∧ (∀ n e p, body = ⟨some n, some e, some p⟩ → n ≠ "" → e ≠ "" → p ≠ "" →
      emailShape e = false →
      signupFull true body selectRes insertRes =
        ({ status := 400, message := "Invalid email format" }, []))
    ∧ (∀ n e p, body = ⟨some n, some e, some p⟩ → n ≠ "" → e ≠ "" → p ≠ "" →
      emailShape e = true → p.length < 6 →
      signupFull true body selectRes insertRes =
        ({ status := 400, message := "Password must be at least 6 characters long" }, []))
    ∧ ((jsFalsy body.name || jsFalsy body.email || jsFalsy body.password) = true →
      signupServer body selectRes insertRes =
        ({ status := 400, message := "All fields are required" }, []))
    ∧ ((jsFalsy body.name || jsFalsy body.email || jsFalsy body.password) = false →
      DbEffect.selectByEmail ∈ (signupServer body selectRes insertRes).2) := by
  refine ⟨fun hf => ?_, fun n e p hb hn he hp hshape => ?_,
    fun n e p hb hn he hp hshape hlen => ?_, fun hf => ?_, fun hf => ?_⟩
  · simp [signupFull, hf]
  · subst hb
    simp [signupFull, jsFalsy, hn, he, hp, hshape]
  · subst hb
    simp [signupFull, jsFalsy, hn, he, hp, hshape, hlen]
  · simp [signupServer, hf]
  · cases selectRes with
    | success rows =>
      cases rows with
      | nil => cases insertRes with
        | success irows => cases irows <;> simp [signupServer, hf]
        | failure msg => simp [signupServer, hf]
      | cons u us => simp [signupServer, hf]
    | failure msg =>
      cases insertRes with
      | success irows => cases irows <;> simp [signupServer, hf]
      | failure imsg => simp [signupServer, hf]

/-- Claim C7 witness: concrete signup bodies — a missing e-mail field, a
malformed e-mail and a five-character password rejected by the full handler with
an empty trace; the minimal handler rejecting a missing field, but passing a
malformed e-mail through to the store. -/
theorem signup_validation_rejects_before_store_witness :
    signupFull true { name := some "A", email := none, password := some "secret1" }
      (QueryResult.success []) (QueryResult.success []) =
      ({ status := 400, message := "Name, email, and password are required" }, [])
    ∧ signupFull true { name := some "A", email := some "not-an-email", password := some "secret1" }
      (QueryResult.success []) (QueryResult.success []) =
      ({ status := 400, message := "Invalid email format" }, [])
    ∧ signupFull true { name := some "A", email := some "a@x.com", password := some "abcde" }
      (QueryResult.success []) (QueryResult.success []) =
      ({ status := 400, message := "Password must be at least 6 characters long" }, [])
    ∧ signupServer { name := some "A", email := none, password := some "secret1" }
      (QueryResult.success []) (QueryResult.success []) =
      ({ status := 400, message := "All fields are required" }, [])
    ∧ DbEffect.selectByEmail ∈
      (signupServer { name := some "A", email := some "not-an-email", password := some "abc" }
        (QueryResult.success []) (QueryResult.success [])).2 := by
  refine ⟨(signup_validation_rejects_before_store
      { name := some "A", email := none, password := some "secret1" }
      (QueryResult.success []) (QueryResult.success [])).1 (by decide),
    (signup_validation_rejects_before_store
      { name := some "A", email := some "not-an-email", password := some "secret1" }
      (QueryResult.success []) (QueryResult.success [])).2.1
      "A" "not-an-email" "secret1" rfl (by decide) (by decide) (by decide) (by decide),
    (signup_validation_rejects_before_store
      { name := some "A", email := some "a@x.com", password := some "abcde" }
      (QueryResult.success []) (QueryResult.success [])).2.2.1
      "A" "a@x.com" "abcde" rfl (by decide) (by decide) (by decide) (by decide) (by decide),
    (signup_validation_rejects_before_store
      { name := some "A", email := none, password := some "secret1" }
      (QueryResult.success []) (QueryResult.success [])).2.2.2.1 (by decide),
    (signup_validation_rejects_before_store
      { name := some "A", email := some "not-an-email", password := some "abc" }
      (QueryResult.success []) (QueryResult.success [])).2.2.2.2 (by decide)⟩

/-- Claim C10: in the `src/server.js` signup, when the duplicate-email existence
check returns a failed Result, the handler does not abort: the 409 duplicate
branch is skipped, the password is hashed and the insert is attempted (full
effect trace), and the outcome is decided by the insert alone — 201 when it
returns a row, 500 otherwise. -/
theorem signup_failed_check_proceeds (n e p err : String)
    (hn : n ≠ "") (he : e ≠ "") (hp : p ≠ "")
    (insertRes : QueryResult UserRow) :
    (signupServer ⟨some n, some e, some p⟩ (QueryResult.failure err) insertRes).2 =
      [DbEffect.selectByEmail, DbEffect.hashPassword, DbEffect.insertUser]
    ∧ (signupServer ⟨some n, some e, some p⟩ (QueryResult.failure err) insertRes).1.status =
      (match insertRes with
        | .success (_ :: _) => 201
        | .success [] => 500
        | .failure _ => 500) := by
  cases insertRes with
  | success rows =>
    cases rows with
    | nil => constructor <;> simp [signupServer, jsFalsy, hn, he, hp]
    | cons u us => constructor <;> simp [signupServer, jsFalsy, hn, he, hp]
  | failure msg => constructor <;> simp [signupServer, jsFalsy, hn, he, hp]

/-- Claim C10 witness: with a failed existence check, a successful insert still
registers the user (201) and the full select/hash/insert trace is performed. -/
theorem signup_failed_check_proceeds_witness :
    (signupServer ⟨some "A", some "a@x.com", some "secret1"⟩
      (QueryResult.failure "connection timeout")
      (QueryResult.success [⟨1, "A", "a@x.com", bcryptHash 0 10 "secret1", true⟩])).2 =
      [DbEffect.selectByEmail, DbEffect.hashPassword, DbEffect.insertUser]
    ∧ (signupServer ⟨some "A", some "a@x.com", some "secret1"⟩
      (QueryResult.failure "connection timeout")
      (QueryResult.success [⟨1, "A", "a@x.com", bcryptHash 0 10 "secret1", true⟩])).1.status = 201 := by
  exact signup_failed_check_proceeds "A" "a@x.com" "secret1" "connection timeout"
    (by decide) (by decide) (by decide)
    (QueryResult.success [⟨1, "A", "a@x.com", bcryptHash 0 10 "secret1", true⟩])

end Backend
